import Mathlib

/-!
Verification of the ISO23870_Grapher repository against its specification.

The development shallowly embeds the two layers of the program:

* the limit-function catalogue of `src/ISO23870_10_grapher.py` — each Python
  function's scalar branch becomes a Lean function `ℝ → Option ℝ` (`none`
  models Python's `None`, the "undefined" value outside the validity domain);
  the closed-form expression of each piecewise segment is given its own named
  definition (`…_s1`, `…_s2`, …) so that breakpoint continuity can be stated,
  and the main definition selects between those segments exactly as the
  Python branch structure does;

* the elementwise evaluator `feval` (identical in `src/ISO23870_10_grapher.py`
  and `src/ISO_plotlib.py`), including the numpy detail that the result array
  is allocated with `dtype=type(first value)`: once the first sample is a
  float the array is a float array and a later `None` assignment raises;

* the publication pipeline `ISO_Plots` of `src/ISO_plotlib.py` — its mutable
  state (figure counter, appendix, key table, archive manifest), figure
  numbering, appendix handling, key-table bookkeeping, filename derivation
  (for the default `ISO_IMPROVED_STYLE`; `std_num`, `std_ed` and the legacy
  naming style feed no claim and are not carried) and wrap-up.  Rendering
  calls into matplotlib are external collaborators and have no effect on the
  session state, so they are not modelled; raises are modelled by
  `Except.error`.
-/

/-! ### Limit function catalogue (src/ISO23870_10_grapher.py)

Scalar branches. Python's `np.log10` is `Real.logb 10`, `np.sqrt` is
`Real.sqrt`.  Each function guards its validity domain with the exact test
of the source (`elif f<a or f>b: return None`). -/

/-- `ILmax_conn` (grapher lines 272-282), in-domain expression. -/
noncomputable def ILmax_conn (f : ℝ) : Option ℝ :=
  if f < 1 ∨ f > 600 then none
  else some (0.01 * Real.sqrt f)

/-- First segment of `RLmax_conn` (line 296): constant 30 dB for f ≤ 189.7367. -/
noncomputable def RLmax_conn_s1 (_f : ℝ) : ℝ := 30

/-- Second segment of `RLmax_conn` (line 298). -/
noncomputable def RLmax_conn_s2 (f : ℝ) : ℝ := 20 - 20 * Real.logb 10 (f / 600)

/-- `RLmax_conn` (grapher lines 286-298). -/
noncomputable def RLmax_conn (f : ℝ) : Option ℝ :=
  if f < 1 ∨ f > 600 then none
  else if f ≤ 189.7367 then some (RLmax_conn_s1 f)
  else some (RLmax_conn_s2 f)

/-- First segment of `LCLmax_conn` (line 311). -/
noncomputable def LCLmax_conn_s1 (_f : ℝ) : ℝ := 50

/-- Second segment of `LCLmax_conn` (line 313). -/
noncomputable def LCLmax_conn_s2 (f : ℝ) : ℝ := 75.1890 - 14.8261 * Real.logb 10 f

/-- `LCLmax_conn` (grapher lines 302-313). -/
noncomputable def LCLmax_conn (f : ℝ) : Option ℝ :=
  if f < 10 ∨ f > 600 then none
  else if f ≤ 50 then some (LCLmax_conn_s1 f)
  else some (LCLmax_conn_s2 f)

/-- `LCTLmax_conn` (lines 317-319) delegates to `LCLmax_conn`. -/
noncomputable def LCTLmax_conn (f : ℝ) : Option ℝ := LCLmax_conn f

/-- First segment of `PSANEXT_conn_ES` (line 332). -/
noncomputable def PSANEXT_conn_ES_s1 (f : ℝ) : ℝ := 77 - 10 * Real.logb 10 f

/-- Second segment of `PSANEXT_conn_ES` (line 334). -/
noncomputable def PSANEXT_conn_ES_s2 (f : ℝ) : ℝ :=
  87 - 15 * Real.logb 10 f - 6 * (f - 100) / 400

/-- `PSANEXT_conn_ES` (grapher lines 323-334). -/
noncomputable def PSANEXT_conn_ES (f : ℝ) : Option ℝ :=
  if f < 1 ∨ f > 600 then none
  else if f ≤ 100 then some (PSANEXT_conn_ES_s1 f)
  else some (PSANEXT_conn_ES_s2 f)

/-- `PSAFEXT_conn_ES` (grapher lines 338-347). -/
noncomputable def PSAFEXT_conn_ES (f : ℝ) : Option ℝ :=
  if f < 1 ∨ f > 600 then none
  else some (86.67 - 20 * Real.logb 10 f)

/-- First segment of `Atten_c_class1_conn_ES` (line 360). -/
noncomputable def Atten_c_class1_conn_ES_s1 (_f : ℝ) : ℝ := 70

/-- Second segment of `Atten_c_class1_conn_ES` (line 362). -/
noncomputable def Atten_c_class1_conn_ES_s2 (f : ℝ) : ℝ :=
  108.5529 - 19.2765 * Real.logb 10 f

/-- `Atten_c_class1_conn_ES` (grapher lines 351-362). -/
noncomputable def Atten_c_class1_conn_ES (f : ℝ) : Option ℝ :=
  if f < 30 ∨ f > 600 then none
  else if f ≤ 100 then some (Atten_c_class1_conn_ES_s1 f)
  else some (Atten_c_class1_conn_ES_s2 f)

/-- `Atten_c_class2_conn_ES` (grapher lines 366-375). -/
noncomputable def Atten_c_class2_conn_ES (f : ℝ) : Option ℝ :=
  if f < 30 ∨ f > 600 then none
  else some 70

/-- `Atten_s_class1_conn_ES` (grapher lines 379-388). -/
noncomputable def Atten_s_class1_conn_ES (f : ℝ) : Option ℝ :=
  if f < 30 ∨ f > 600 then none
  else some 28

/-- `Atten_s_class2_conn_ES` (grapher lines 392-401). -/
noncomputable def Atten_s_class2_conn_ES (f : ℝ) : Option ℝ :=
  if f < 30 ∨ f > 600 then none
  else some 45

/-- `ILmax_cable` (grapher lines 412-423). -/
noncomputable def ILmax_cable (f : ℝ) : Option ℝ :=
  if f < 1 ∨ f > 600 then none
  else some ((0.0023 * f + (0.5907 - 6.0 * 0.01) * Real.sqrt f
      + 0.0639 / Real.sqrt f) / 15.0)

/-- Segment 1 of `RLmax_cable` (line 437): f < 10. -/
noncomputable def RLmax_cable_s1 (_f : ℝ) : ℝ := 22

/-- Segment 2 of `RLmax_cable` (line 439): 10 ≤ f < 40. -/
noncomputable def RLmax_cable_s2 (f : ℝ) : ℝ := 26.9829 - 4.9829 * Real.logb 10 f

/-- Segment 3 of `RLmax_cable` (line 441): 40 ≤ f ≤ 130. -/
noncomputable def RLmax_cable_s3 (_f : ℝ) : ℝ := 19

/-- Segment 4 of `RLmax_cable` (line 443): 130 < f < 400. -/
noncomputable def RLmax_cable_s4 (f : ℝ) : ℝ := 40.65408 - 10.24345 * Real.logb 10 f

/-- Segment 5 of `RLmax_cable` (line 445): f ≥ 400. -/
noncomputable def RLmax_cable_s5 (_f : ℝ) : ℝ := 14

/-- `RLmax_cable` (grapher lines 427-445). -/
noncomputable def RLmax_cable (f : ℝ) : Option ℝ :=
  if f < 1 ∨ f > 600 then none
  else if f < 10 then some (RLmax_cable_s1 f)
  else if f < 40 then some (RLmax_cable_s2 f)
  else if f ≤ 130 then some (RLmax_cable_s3 f)
  else if f < 400 then some (RLmax_cable_s4 f)
  else some (RLmax_cable_s5 f)

/-- First segment of `LCLmax_cable` (line 458). -/
noncomputable def LCLmax_cable_s1 (_f : ℝ) : ℝ := 50

/-- Second segment of `LCLmax_cable` (line 460). -/
noncomputable def LCLmax_cable_s2 (f : ℝ) : ℝ := 81.4863 - 18.5326 * Real.logb 10 f

/-- `LCLmax_cable` (grapher lines 449-460). -/
noncomputable def LCLmax_cable (f : ℝ) : Option ℝ :=
  if f < 10 ∨ f > 600 then none
  else if f ≤ 50 then some (LCLmax_cable_s1 f)
  else some (LCLmax_cable_s2 f)

/-- First segment of `LCTLmax_cable` (line 473). -/
noncomputable def LCTLmax_cable_s1 (_f : ℝ) : ℝ := 46

/-- Second segment of `LCTLmax_cable` (line 475). -/
noncomputable def LCTLmax_cable_s2 (f : ℝ) : ℝ := 71.1890 - 14.8261 * Real.logb 10 f

/-- `LCTLmax_cable` (grapher lines 464-475). -/
noncomputable def LCTLmax_cable (f : ℝ) : Option ℝ :=
  if f < 10 ∨ f > 600 then none
  else if f ≤ 50 then some (LCTLmax_cable_s1 f)
  else some (LCTLmax_cable_s2 f)

/-- `Atten_c_class1_cable_ES` (grapher lines 479-488). -/
noncomputable def Atten_c_class1_cable_ES (f : ℝ) : Option ℝ :=
  if f < 30 ∨ f > 600 then none
  else some 70

/-- `Atten_c_class2_cable_ES` (lines 491-492) delegates to class 1. -/
noncomputable def Atten_c_class2_cable_ES (f : ℝ) : Option ℝ :=
  Atten_c_class1_cable_ES f

/-- `Atten_s_class1_cable_ES` (grapher lines 496-505). -/
noncomputable def Atten_s_class1_cable_ES (f : ℝ) : Option ℝ :=
  if f < 30 ∨ f > 600 then none
  else some 35

/-- `Atten_s_class2_cable_ES` (grapher lines 509-518). -/
noncomputable def Atten_s_class2_cable_ES (f : ℝ) : Option ℝ :=
  if f < 30 ∨ f > 600 then none
  else some 45

/-- `ILmax_cable_assy` (grapher lines 528-537): there is no limit on IL for an
SCC cable segment, the scalar branch returns `None` for every frequency. -/
def ILmax_cable_assy (_f : ℝ) : Option ℝ := none

/-- Default sampling plan of `ILmax_cable_assy` (line 532): `np.array([1.0, 600.0])`. -/
noncomputable def ILmax_cable_assy_plan : List ℝ := [1, 600]

/-- Segment 1 of `RLmax_cable_assy` (line 551): f ≤ 130. -/
noncomputable def RLmax_cable_assy_s1 (_f : ℝ) : ℝ := 22

/-- Segment 2 of `RLmax_cable_assy` (line 553): 130 < f < 400. -/
noncomputable def RLmax_cable_assy_s2 (f : ℝ) : ℝ :=
  56.6465 - 16.3895 * Real.logb 10 f

/-- Segment 3 of `RLmax_cable_assy` (line 555): f ≥ 400. -/
noncomputable def RLmax_cable_assy_s3 (_f : ℝ) : ℝ := 14

/-- `RLmax_cable_assy` (grapher lines 541-555). -/
noncomputable def RLmax_cable_assy (f : ℝ) : Option ℝ :=
  if f < 1 ∨ f > 600 then none
  else if f ≤ 130 then some (RLmax_cable_assy_s1 f)
  else if f < 400 then some (RLmax_cable_assy_s2 f)
  else some (RLmax_cable_assy_s3 f)

/-- First segment of `LCLmax_cable_assy` (line 568). -/
noncomputable def LCLmax_cable_assy_s1 (_f : ℝ) : ℝ := 41

/-- Second segment of `LCLmax_cable_assy` (line 570). -/
noncomputable def LCLmax_cable_assy_s2 (f : ℝ) : ℝ :=
  66.1890 - 14.8261 * Real.logb 10 f

/-- `LCLmax_cable_assy` (grapher lines 559-570). -/
noncomputable def LCLmax_cable_assy (f : ℝ) : Option ℝ :=
  if f < 10 ∨ f > 600 then none
  else if f ≤ 50 then some (LCLmax_cable_assy_s1 f)
  else some (LCLmax_cable_assy_s2 f)

/-- `LCTLmax_cable_assy` (lines 574-576) delegates to `LCLmax_cable_assy`. -/
noncomputable def LCTLmax_cable_assy (f : ℝ) : Option ℝ := LCLmax_cable_assy f

/-- Segment 1 of `Atten_c_class1_cable_assy_ES` (line 589): f ≤ 100. -/
noncomputable def Atten_c_class1_cable_assy_ES_s1 (_f : ℝ) : ℝ := 70

/-- Segment 2 of `Atten_c_class1_cable_assy_ES` (line 591): 100 < f ≤ 400. -/
noncomputable def Atten_c_class1_cable_assy_ES_s2 (f : ℝ) : ℝ :=
  99.8974 - 14.9487 * Real.logb 10 f

/-- Segment 3 of `Atten_c_class1_cable_assy_ES` (line 593): f > 400. -/
noncomputable def Atten_c_class1_cable_assy_ES_s3 (f : ℝ) : ℝ :=
  75.7768 - 5.6789 * Real.logb 10 f

/-- `Atten_c_class1_cable_assy_ES` (grapher lines 580-593). -/
noncomputable def Atten_c_class1_cable_assy_ES (f : ℝ) : Option ℝ :=
  if f < 30 ∨ f > 600 then none
  else if f ≤ 100 then some (Atten_c_class1_cable_assy_ES_s1 f)
  else if f ≤ 400 then some (Atten_c_class1_cable_assy_ES_s2 f)
  else some (Atten_c_class1_cable_assy_ES_s3 f)

/-- `Atten_c_class2_cable_assy_ES` (grapher lines 597-606). -/
noncomputable def Atten_c_class2_cable_assy_ES (f : ℝ) : Option ℝ :=
  if f < 30 ∨ f > 600 then none
  else some 70

/-- `Atten_s_class1_cable_assy_ES` (grapher lines 610-619). -/
noncomputable def Atten_s_class1_cable_assy_ES (f : ℝ) : Option ℝ :=
  if f < 30 ∨ f > 600 then none
  else some 28

/-- `Atten_s_class2_cable_assy_ES` (grapher lines 623-632). -/
noncomputable def Atten_s_class2_cable_assy_ES (f : ℝ) : Option ℝ :=
  if f < 30 ∨ f > 600 then none
  else some 45

/-- `ILmax_WCC_LSTB` (grapher lines 642-653). -/
noncomputable def ILmax_WCC_LSTB (f : ℝ) : Option ℝ :=
  if f < 1 ∨ f > 600 then none
  else some (0.0040 * f + (0.7131 + 0.08 + 0.018) * Real.sqrt f
      + 0.1100 / Real.sqrt f)

/-- `ILmax_WCC_LSTA` (grapher lines 657-668). -/
noncomputable def ILmax_WCC_LSTA (f : ℝ) : Option ℝ :=
  if f < 1 ∨ f > 600 then none
  else some (0.0023 * f + 0.5907 * Real.sqrt f + 0.0639 / Real.sqrt f)

/-- Segment 1 of `RLmax_WCC` (line 683): f < 10. -/
noncomputable def RLmax_WCC_s1 (_f : ℝ) : ℝ := 19

/-- Segment 2 of `RLmax_WCC` (line 686): 10 ≤ f < 40. -/
noncomputable def RLmax_WCC_s2 (f : ℝ) : ℝ := 23.9829 - 4.9829 * Real.logb 10 f

/-- Segment 3 of `RLmax_WCC` (line 688): 40 ≤ f ≤ 130. -/
noncomputable def RLmax_WCC_s3 (_f : ℝ) : ℝ := 16

/-- Segment 4 of `RLmax_WCC` (line 690): 130 < f < 400. -/
noncomputable def RLmax_WCC_s4 (f : ℝ) : ℝ := 37.65408 - 10.24345 * Real.logb 10 f

/-- Segment 5 of `RLmax_WCC` (line 692): f ≥ 400. -/
noncomputable def RLmax_WCC_s5 (_f : ℝ) : ℝ := 11

/-- `RLmax_WCC` (grapher lines 673-692). -/
noncomputable def RLmax_WCC (f : ℝ) : Option ℝ :=
  if f < 1 ∨ f > 600 then none
  else if f < 10 then some (RLmax_WCC_s1 f)
  else if f < 40 then some (RLmax_WCC_s2 f)
  else if f ≤ 130 then some (RLmax_WCC_s3 f)
  else if f < 400 then some (RLmax_WCC_s4 f)
  else some (RLmax_WCC_s5 f)

/-- First segment of `LCLmax_WCC` (line 705). -/
noncomputable def LCLmax_WCC_s1 (_f : ℝ) : ℝ := 41

/-- Second segment of `LCLmax_WCC` (line 707). -/
noncomputable def LCLmax_WCC_s2 (f : ℝ) : ℝ := 66.1890 - 14.8261 * Real.logb 10 f

/-- `LCLmax_WCC` (grapher lines 696-707). -/
noncomputable def LCLmax_WCC (f : ℝ) : Option ℝ :=
  if f < 10 ∨ f > 600 then none
  else if f ≤ 50 then some (LCLmax_WCC_s1 f)
  else some (LCLmax_WCC_s2 f)

/-- `LCTLmax_WCC` (lines 711-713) delegates to `LCLmax_WCC`. -/
noncomputable def LCTLmax_WCC (f : ℝ) : Option ℝ := LCLmax_WCC f

/-- First segment of `PSANEXT_WCC_ES` (line 726). -/
noncomputable def PSANEXT_WCC_ES_s1 (f : ℝ) : ℝ := 74 - 10 * Real.logb 10 f

/-- Second segment of `PSANEXT_WCC_ES` (line 728). -/
noncomputable def PSANEXT_WCC_ES_s2 (f : ℝ) : ℝ :=
  84 - 15 * Real.logb 10 f - 6 * (f - 100) / 400

/-- `PSANEXT_WCC_ES` (grapher lines 717-728). -/
noncomputable def PSANEXT_WCC_ES (f : ℝ) : Option ℝ :=
  if f < 1 ∨ f > 600 then none
  else if f ≤ 100 then some (PSANEXT_WCC_ES_s1 f)
  else some (PSANEXT_WCC_ES_s2 f)

/-- `PSAACRF_WCC_ES` (grapher lines 732-741). -/
noncomputable def PSAACRF_WCC_ES (f : ℝ) : Option ℝ :=
  if f < 1 ∨ f > 600 then none
  else some (43.67 - 20 * Real.logb 10 (f / 100))

/-- First segment of `Atten_c_class1_WCC_ES` (line 754). -/
noncomputable def Atten_c_class1_WCC_ES_s1 (_f : ℝ) : ℝ := 65

/-- Second segment of `Atten_c_class1_WCC_ES` (line 756). -/
noncomputable def Atten_c_class1_WCC_ES_s2 (f : ℝ) : ℝ :=
  103.5529 - 19.2765 * Real.logb 10 f

/-- `Atten_c_class1_WCC_ES` (grapher lines 745-756). -/
noncomputable def Atten_c_class1_WCC_ES (f : ℝ) : Option ℝ :=
  if f < 30 ∨ f > 600 then none
  else if f ≤ 100 then some (Atten_c_class1_WCC_ES_s1 f)
  else some (Atten_c_class1_WCC_ES_s2 f)

/-- `Atten_c_class2_WCC_ES` (grapher lines 760-769). -/
noncomputable def Atten_c_class2_WCC_ES (f : ℝ) : Option ℝ :=
  if f < 30 ∨ f > 600 then none
  else some 65

/-- `Atten_s_class1_WCC_ES` (grapher lines 773-782). -/
noncomputable def Atten_s_class1_WCC_ES (f : ℝ) : Option ℝ :=
  if f < 30 ∨ f > 600 then none
  else some 25

/-- `Atten_s_class2_WCC_ES` (grapher lines 786-795). -/
noncomputable def Atten_s_class2_WCC_ES (f : ℝ) : Option ℝ :=
  if f < 30 ∨ f > 600 then none
  else some 40

/-- First segment of `Zshield_max_ECU` (line 808): f ≤ 60. -/
noncomputable def Zshield_max_ECU_s1 (_f : ℝ) : ℝ := 10

/-- Second segment of `Zshield_max_ECU` (line 810): f > 60. -/
noncomputable def Zshield_max_ECU_s2 (f : ℝ) : ℝ := 10 + 60 * Real.logb 10 (f / 60)

/-- `Zshield_max_ECU` (grapher lines 799-810). -/
noncomputable def Zshield_max_ECU (f : ℝ) : Option ℝ :=
  if f < 1 ∨ f > 600 then none
  else if f ≤ 60 then some (Zshield_max_ECU_s1 f)
  else some (Zshield_max_ECU_s2 f)

/-! ### Elementwise evaluator `feval`

`feval(x, fun)` (grapher lines 247-262, identically `ISO_Plots.feval` in
`src/ISO_plotlib.py` lines 450-479).  The ndarray branch iterates over the
elements; at the first element it allocates the result array with
`np.empty(x.shape, dtype=type(v))`, so the dtype is `float64` when the first
value is a float and `object` when it is `None`.  Assigning `None` into a
`float64` array raises (`float(None)` is a `TypeError`); any value can be
stored in an `object` array.  `storeAll floatDtype vs` replays the store
loop, `Except.error ()` modelling the raise.  An empty ndarray leaves `y`
as Python `None`, modelled by the outer `none`. -/

/-- The store loop of `feval`'s ndarray branch: `y[i] = v` for each computed
value, failing when a `None` is stored into a float-dtype array. -/
def storeAll (floatDtype : Bool) : List (Option ℝ) → Except Unit (List (Option ℝ))
  | [] => Except.ok []
  | v :: vs =>
    if floatDtype && v.isNone then Except.error ()
    else
      match storeAll floatDtype vs with
      | Except.ok r => Except.ok (v :: r)
      | Except.error e => Except.error e

/-- `feval` on a 1-D array of frequencies.  The dtype of the result is fixed
by the first computed value; an empty array returns Python `None` (outer
`none`). -/
def feval (fn : ℝ → Option ℝ) : List ℝ → Option (Except Unit (List (Option ℝ)))
  | [] => none
  | x :: xs => some (storeAll (fn x).isSome ((x :: xs).map fn))

/-! ### Publication pipeline (src/ISO_plotlib.py, class `ISO_Plots`)

The session state carries the fields the claims are about: `std_num`,
`std_ed` and `filename_style` feed only the legacy `ISO_DEFAULT_STYLE`
filename branch, which no claim exercises, and are not carried — filenames
follow the default `ISO_IMPROVED_STYLE` branch of `__FigFilename`. -/

/-- Session state of an `ISO_Plots` object (constructor, lines 65-81). -/
structure ISO_Plots where
  std_name : String
  fig_dir : String
  fig_fmt : String
  fig_num : ℕ
  appendix : Option Char
  key_table : List String
  zip_file_list : List String
deriving DecidableEq

/-- A Python annotation-coordinate argument: a 2-tuple (axes-fraction
coordinates), a 2-element list (data coordinates), or any other value
(`other`), which the code rejects with an exception.  (A tuple or list of
another arity also raises, at the unpacking; it is folded into `other`.) -/
inductive PyCoord where
  | tup : ℝ → ℝ → PyCoord
  | lst : ℝ → ℝ → PyCoord
  | other : PyCoord

/-- Is an (optional) annotation coordinate argument of a supported shape? -/
def shapeOk : Option PyCoord → Bool
  | some PyCoord.other => false
  | _ => true

/-- Python's `f"{fig:03}"`: decimal, zero-padded to width 3. -/
def pad3 (n : ℕ) : String :=
  let s := toString n
  if s.length ≥ 3 then s else String.mk (List.replicate (3 - s.length) '0') ++ s

/-- The figure identifier of a key record: `FIG-NNN`, or `FIG-<appendix>.NNN`
inside an appendix (`__AddKeyToFigure`, lines 153-158). -/
def figId (appendix : Option Char) (fig : ℕ) : String :=
  match appendix with
  | none => "FIG-" ++ pad3 fig
  | some a => "FIG-" ++ String.singleton a ++ "." ++ pad3 fig

/-- One key-table line: `f'{figure_id}\t{key}\t{value}\n'`. -/
def figLine (appendix : Option Char) (fig : ℕ) (key value : String) : String :=
  figId appendix fig ++ "\t" ++ key ++ "\t" ++ value ++ "\n"

/-- `__AddKeyToFigure` (lines 153-158): append one record to the key table. -/
def AddKeyToFigure (s : ISO_Plots) (fig : ℕ) (key value : String) : ISO_Plots :=
  { s with key_table := s.key_table ++ [figLine s.appendix fig key value] }

/-- `__AddFileToZip` (lines 174-176): append a path to the archive manifest
(no effect when the argument is `None`). -/
def AddFileToZip (s : ISO_Plots) : Option String → ISO_Plots
  | none => s
  | some fn => { s with zip_file_list := s.zip_file_list ++ [fn] }

/-- `__FigFilename` (lines 193-211), default `ISO_IMPROVED_STYLE` branch. -/
def FigFilename (s : ISO_Plots) (fig : ℕ) (figname : Option String) : String :=
  match s.appendix, figname with
  | none, some nm =>
      s.fig_dir ++ "FIG-" ++ pad3 fig ++ "_" ++ s.std_name ++ "_(E)_Ed1 " ++ nm ++ s.fig_fmt
  | none, none =>
      s.fig_dir ++ "FIG-" ++ pad3 fig ++ "_" ++ s.std_name ++ "_(E)_Ed1" ++ s.fig_fmt
  | some a, some nm =>
      s.fig_dir ++ "FIG-" ++ String.singleton a ++ "." ++ pad3 fig ++ "_" ++ s.std_name
        ++ "_(E)_Ed1 " ++ nm ++ s.fig_fmt
  | some a, none =>
      s.fig_dir ++ "FIG-" ++ String.singleton a ++ "." ++ pad3 fig ++ "_" ++ s.std_name
        ++ "_(E)_Ed1" ++ s.fig_fmt

/-- The Y-axis key value `vunit` (lines 340-345).  Python interpolates `None`
as the text "None" in the `f'LIMIT [{unit}]'` branch. -/
def vunit (abbr unit : Option String) : String :=
  match abbr, unit with
  | some a, some u => a ++ " [" ++ u ++ "]"
  | none, some u => "LIMIT [" ++ u ++ "]"
  | none, none => "LIMIT [" ++ "None" ++ "]"
  | some a, none => a

/-- One pass/fail/better annotation step of `ISO_Plot` (lines 355-381 and
399-411): given the running `key_num`, a present coordinate of supported
shape takes the current number and increments it; an unsupported shape
raises.  (For `xybetter` Python assigns the key before the shape dispatch,
but the raise discards the assignment, so the observable effect is the
same.) -/
def annStep (kn : ℕ) : Option PyCoord → Except Unit (Option ℕ × ℕ)
  | none => Except.ok (none, kn)
  | some (PyCoord.tup _ _) => Except.ok (some kn, kn + 1)
  | some (PyCoord.lst _ _) => Except.ok (some kn, kn + 1)
  | some PyCoord.other => Except.error ()

/-- The `xyfail2` step of `ISO_Plot` (lines 383-397): a present second fail
marker reuses `key_fail` when one was assigned, and otherwise takes the next
number itself; an unsupported shape raises. -/
def fail2Step (keyFail : Option ℕ) (kn : ℕ) :
    Option PyCoord → Except Unit (Option ℕ × ℕ)
  | none => Except.ok (keyFail, kn)
  | some (PyCoord.tup _ _) =>
    match keyFail with
    | none => Except.ok (some kn, kn + 1)
    | some k => Except.ok (some k, kn)
  | some (PyCoord.lst _ _) =>
    match keyFail with
    | none => Except.ok (some kn, kn + 1)
    | some k => Except.ok (some k, kn)
  | some PyCoord.other => Except.error ()

/-- The annotation-processing block of `ISO_Plot` (lines 350-411): starting
from `key_num = 1`, process `xypass`, `xyfail`, `xyfail2`, `xybetter` in
that order and return the assigned key numbers `(key_pass, key_fail,
key_better)`. -/
def annKeys (xypass xyfail xyfail2 xybetter : Option PyCoord) :
    Except Unit (Option ℕ × Option ℕ × Option ℕ) :=
  match annStep 1 xypass with
  | Except.error e => Except.error e
  | Except.ok (kp, n1) =>
    match annStep n1 xyfail with
    | Except.error e => Except.error e
    | Except.ok (kf, n2) =>
      match fail2Step kf n2 xyfail2 with
      | Except.error e => Except.error e
      | Except.ok (kf2, n3) =>
        match annStep n3 xybetter with
        | Except.error e => Except.error e
        | Except.ok (kb, _) => Except.ok (kp, kf2, kb)

/-- The arguments of an `ISO_Plot` call that touch the session state.
`samples`/`freqs` stand for the pair `y, f = fun()`; the rendering-only
options (`is_dc`, `title`, `logx`, `xlim`, `ylim`, `yticks`, `dbetter`,
`show`) only affect the externally drawn figure, never the state, and are
not carried.  Samples are single-trace curves (the multi-trace tuple case
drawn by `ISO_Plot` is likewise stateless). -/
structure PlotArgs where
  samples : List (Option ℝ)
  freqs : List ℝ
  abbr : Option String
  unit : Option String
  xypass : Option PyCoord
  xyfail : Option PyCoord
  xyfail2 : Option PyCoord
  xybetter : Option PyCoord
  fig : Option ℕ
  figname : Option String

/-- `ISO_Plot` (lines 220-435) as a state transformer.  `y[0]` is read by
the multi-trace test, so an empty sample array raises; then the annotation
block runs (raising on an unsupported coordinate shape, before any state is
touched); then the figure number is resolved (lines 416-419: an explicit
`fig` resynchronizes the counter, otherwise `__next_figure` increments it);
then the X/Y and annotation key records are appended (lines 421-428) and
`__FigSave` appends the figure's filename to the archive manifest. -/
def ISO_Plot (s : ISO_Plots) (a : PlotArgs) : Except Unit ISO_Plots :=
  if a.samples.isEmpty then Except.error ()
  else
    match annKeys a.xypass a.xyfail a.xyfail2 a.xybetter with
    | Except.error e => Except.error e
    | Except.ok (kp, kf, kb) =>
      let fig : ℕ :=
        match a.fig with
        | none => s.fig_num + 1
        | some n => n
      let s1 : ISO_Plots := { s with fig_num := fig }
      let s2 := AddKeyToFigure s1 fig "X" "Frequency [MHz]"
      let s3 := AddKeyToFigure s2 fig "Y" (vunit a.abbr a.unit)
      let s4 :=
        match kp with
        | none => s3
        | some k => AddKeyToFigure s3 fig ("(" ++ toString k ++ ")") "Pass"
      let s5 :=
        match kf with
        | none => s4
        | some k => AddKeyToFigure s4 fig ("(" ++ toString k ++ ")") "Fail"
      let s6 :=
        match kb with
        | none => s5
        | some k => AddKeyToFigure s5 fig ("(" ++ toString k ++ ")") "Better"
      Except.ok (AddFileToZip s6 (some (FigFilename s6 fig a.figname)))

/-- `ISO_Skip_Figure` (lines 93-103): advance the figure counter by `skip`
(default 1 at the call sites) without producing output. -/
def ISO_Skip_Figure (s : ISO_Plots) (skip : ℕ) : ISO_Plots :=
  { s with fig_num := s.fig_num + skip }

/-- `appendix.upper()[0]`: upper-case the label and take its first
character.  Total in the model; Python raises `IndexError` on an empty
label, so the claims only use nonempty labels. -/
def upperFirst (lbl : String) : Char := (lbl.data.map Char.toUpper).headD 'A'

/-- `ISO_Start_Appendix` (lines 126-146): auto-assign the next letter (the
first call yields "A"), or take the caller's label; reset the figure
counter to 0. -/
def ISO_Start_Appendix (s : ISO_Plots) (appendix : Option String) : ISO_Plots :=
  let a : Char :=
    match appendix, s.appendix with
    | none, none => 'A'
    | none, some c => Char.ofNat (c.toNat + 1)
    | some lbl, _ => upperFirst lbl
  { s with appendix := some a, fig_num := 0 }

/-- `__CreateKeyTable` (lines 161-167): the key file's path and the lines
written to it, in order. -/
def CreateKeyTable (s : ISO_Plots) : String × List String :=
  (s.fig_dir ++ s.std_name ++ "_(E)_KEYS.txt", s.key_table)

/-- The maximal backslash-free suffix of a path: what the regex of
`__CreateZipArchive` (line 183) matches.  Empty when the path is empty or
ends in a backslash — then the regex does not match and Python raises. -/
def lastComp (p : String) : String :=
  String.mk ((p.data.reverse.takeWhile fun c => c ≠ '\\').reverse)

/-- The `shortname` of a manifested file (lines 183-184): `none` models the
`AttributeError` raised when the regex does not match. -/
def shortname (p : String) : Option String :=
  let t := lastComp p
  if t = "" then none else some t

/-- `__CreateZipArchive` (lines 179-186): the archive's path and its entries
as (arcname, source path) pairs, one per manifested file, in order. -/
def CreateZipArchive (s : ISO_Plots) : Option (String × List (String × String)) :=
  (s.zip_file_list.mapM fun p => (shortname p).map fun n => (n, p)).map
    fun es => (s.fig_dir ++ "FIGURES-" ++ s.std_name ++ "_(E).zip", es)

/-- What `ISO_Wrapup` produces on disk. -/
structure WrapupOut where
  key_filename : String
  key_lines : List String
  zip_filename : String
  zip_entries : List (String × String)
deriving DecidableEq

/-- `ISO_Wrapup` (lines 438-442): write the key table, add the key file to
the archive manifest, create the archive. -/
def ISO_Wrapup (s : ISO_Plots) : Option WrapupOut :=
  let kt := CreateKeyTable s
  let s1 := AddFileToZip s (some kt.1)
  (CreateZipArchive s1).map fun z => ⟨kt.1, kt.2, z.1, z.2⟩

/-! ### Specification-side closed forms

These definitions follow the specification's words (key records in the
fixed pass → fail → better order with sequentially assigned codes, the
second fail marker sharing the first's code); the theorems below compare
`ISO_Plot` against them. -/

/-- The figure number `ISO_Plot` uses: the explicit `fig` argument, or the
incremented counter. -/
def resolvedFig (s : ISO_Plots) (a : PlotArgs) : ℕ := a.fig.getD (s.fig_num + 1)

/-- The key-table records one completed `ISO_Plot` call appends: X and Y
descriptions, then one record per present annotation, the codes assigned
sequentially from 1 in the order pass, fail (either fail marker), better. -/
def plotRecords (app : Option Char) (fig : ℕ) (a : PlotArgs) : List String :=
  [figLine app fig "X" "Frequency [MHz]",
   figLine app fig "Y" (vunit a.abbr a.unit)]
  ++ (if a.xypass.isSome then
        [figLine app fig ("(" ++ toString 1 ++ ")") "Pass"] else [])
  ++ (if a.xyfail.isSome || a.xyfail2.isSome then
        [figLine app fig
          ("(" ++ toString (1 + (if a.xypass.isSome then 1 else 0)) ++ ")") "Fail"]
      else [])
  ++ (if a.xybetter.isSome then
        [figLine app fig
          ("(" ++ toString (1 + (if a.xypass.isSome then 1 else 0)
            + (if a.xyfail.isSome || a.xyfail2.isSome then 1 else 0)) ++ ")") "Better"]
      else [])

/-- The session state after one completed `ISO_Plot` call: the counter holds
the resolved figure number, the key table has gained `plotRecords`, and the
archive manifest has gained the figure's filename.  (`FigFilename` only
reads the naming fields, which no `ISO_Plot` call changes, so passing the
updated state — as `__FigSave(self)` does — names the same file.) -/
def postState (s : ISO_Plots) (a : PlotArgs) : ISO_Plots :=
  let fig := resolvedFig s a
  let s1 : ISO_Plots :=
    { s with fig_num := fig,
             key_table := s.key_table ++ plotRecords s.appendix fig a }
  { s1 with zip_file_list := s1.zip_file_list ++ [FigFilename s1 fig a.figname] }

/-- An example session, used to instantiate the general pipeline theorems at
a concrete input. -/
def exS : ISO_Plots :=
  ⟨"ISO 23870-10", "C:\\Temp\\ISO_FIGURES\\", ".svg", 0, none, [], []⟩

/-- Example `ISO_Plot` arguments: a two-sample curve with a pass marker in
axes-fraction coordinates and a fail marker in data coordinates. -/
noncomputable def exA : PlotArgs :=
  ⟨[some 30, some 22], [1, 600], some "RL", some "dB",
   some (PyCoord.tup 0.6 0.72), some (PyCoord.lst 80 17.5), none, none,
   none, none⟩

/-- Example `ISO_Plot` arguments with a second fail marker but no first fail
marker, plus pass and better markers. -/
noncomputable def exA2 : PlotArgs :=
  ⟨[some 10], [1], some "R", some "Ohm",
   some (PyCoord.tup 0.5 0.5), none, some (PyCoord.lst 0 3000),
   some (PyCoord.tup 0.7 0.7), none, none⟩

/-- An example session that has produced one figure, used to instantiate the
wrap-up theorem. -/
def exS8 : ISO_Plots :=
  ⟨"ISO 23870-10", "C:\\T\\", ".svg", 1, none,
   ["FIG-001\tX\tFrequency [MHz]\n"], ["C:\\T\\FIG-001_ISO 23870-10_(E)_Ed1.svg"]⟩

/-! ### Theorems

#### Rational brackets for the base-10 logarithms at the breakpoints

`p/q ≤ logb 10 x` is certified by the integer inequality `10^p ≤ x^q`
(and the upper bound symmetrically); the kernel checks the integer powers
directly. -/

set_option exponentiation.threshold 800000

theorem le_logb_of_pow_le (x : ℝ) (p q : ℕ) (hq : 0 < q) (_hx : 0 < x)
    (h : (10:ℝ) ^ p ≤ x ^ q) : (p : ℝ) / q ≤ Real.logb 10 x := by
  have h10 : (0:ℝ) < Real.log 10 := Real.log_pos (by norm_num)
  have hlog : Real.log ((10:ℝ) ^ p) ≤ Real.log (x ^ q) :=
    Real.log_le_log (by positivity) h
  rw [Real.log_pow, Real.log_pow] at hlog
  rw [← Real.log_div_log, div_le_div_iff₀ (by exact_mod_cast hq) h10]
  exact hlog.trans_eq (mul_comm _ _)

theorem logb_le_of_pow_le (x : ℝ) (p q : ℕ) (hq : 0 < q) (hx : 0 < x)
    (h : x ^ q ≤ (10:ℝ) ^ p) : Real.logb 10 x ≤ (p : ℝ) / q := by
  have h10 : (0:ℝ) < Real.log 10 := Real.log_pos (by norm_num)
  have hlog : Real.log (x ^ q) ≤ Real.log ((10:ℝ) ^ p) :=
    Real.log_le_log (by positivity) h
  rw [Real.log_pow, Real.log_pow] at hlog
  rw [← Real.log_div_log, div_le_div_iff₀ h10 (by exact_mod_cast hq)]
  rw [mul_comm] at hlog
  exact hlog

theorem logb40_bounds :
    (160205:ℝ) / 100000 ≤ Real.logb 10 40 ∧ Real.logb 10 40 ≤ (160206:ℝ) / 100000 :=
  ⟨le_logb_of_pow_le 40 160205 100000 (by norm_num) (by norm_num)
      (by exact_mod_cast (by decide : (10:ℕ) ^ 160205 ≤ 40 ^ 100000)),
   logb_le_of_pow_le 40 160206 100000 (by norm_num) (by norm_num)
      (by exact_mod_cast (by decide : (40:ℕ) ^ 100000 ≤ 10 ^ 160206))⟩

theorem logb50_bounds :
    (169897:ℝ) / 100000 ≤ Real.logb 10 50 ∧ Real.logb 10 50 ≤ (169898:ℝ) / 100000 :=
  ⟨le_logb_of_pow_le 50 169897 100000 (by norm_num) (by norm_num)
      (by exact_mod_cast (by decide : (10:ℕ) ^ 169897 ≤ 50 ^ 100000)),
   logb_le_of_pow_le 50 169898 100000 (by norm_num) (by norm_num)
      (by exact_mod_cast (by decide : (50:ℕ) ^ 100000 ≤ 10 ^ 169898))⟩

theorem logb130_bounds :
    (211394:ℝ) / 100000 ≤ Real.logb 10 130 ∧ Real.logb 10 130 ≤ (211395:ℝ) / 100000 :=
  ⟨le_logb_of_pow_le 130 211394 100000 (by norm_num) (by norm_num)
      (by exact_mod_cast (by decide : (10:ℕ) ^ 211394 ≤ 130 ^ 100000)),
   logb_le_of_pow_le 130 211395 100000 (by norm_num) (by norm_num)
      (by exact_mod_cast (by decide : (130:ℕ) ^ 100000 ≤ 10 ^ 211395))⟩

theorem logb400_bounds :
    (260205:ℝ) / 100000 ≤ Real.logb 10 400 ∧ Real.logb 10 400 ≤ (260206:ℝ) / 100000 :=
  ⟨le_logb_of_pow_le 400 260205 100000 (by norm_num) (by norm_num)
      (by exact_mod_cast (by decide : (10:ℕ) ^ 260205 ≤ 400 ^ 100000)),
   logb_le_of_pow_le 400 260206 100000 (by norm_num) (by norm_num)
      (by exact_mod_cast (by decide : (400:ℕ) ^ 100000 ≤ 10 ^ 260206))⟩

theorem logb600_bounds :
    (277815:ℝ) / 100000 ≤ Real.logb 10 600 ∧ Real.logb 10 600 ≤ (277816:ℝ) / 100000 :=
  ⟨le_logb_of_pow_le 600 277815 100000 (by norm_num) (by norm_num)
      (by exact_mod_cast (by decide : (10:ℕ) ^ 277815 ≤ 600 ^ 100000)),
   logb_le_of_pow_le 600 277816 100000 (by norm_num) (by norm_num)
      (by exact_mod_cast (by decide : (600:ℕ) ^ 100000 ≤ 10 ^ 277816))⟩

theorem logb1897367_bounds :
    (627815:ℝ) / 100000 ≤ Real.logb 10 1897367 ∧
      Real.logb 10 1897367 ≤ (627816:ℝ) / 100000 :=
  ⟨le_logb_of_pow_le 1897367 627815 100000 (by norm_num) (by norm_num)
      (by exact_mod_cast (by decide : (10:ℕ) ^ 627815 ≤ 1897367 ^ 100000)),
   logb_le_of_pow_le 1897367 627816 100000 (by norm_num) (by norm_num)
      (by exact_mod_cast (by decide : (1897367:ℕ) ^ 100000 ≤ 10 ^ 627816))⟩

theorem logb_ten_self : Real.logb 10 (10:ℝ) = 1 :=
  Real.logb_self_eq_one (by norm_num)

theorem logb_hundred : Real.logb 10 (100:ℝ) = 2 := by
  have h : (100:ℝ) = 10 ^ (2:ℕ) := by norm_num
  rw [h, Real.logb_pow, logb_ten_self]
  norm_num

theorem logb6000000_bounds :
    (677815:ℝ) / 100000 ≤ Real.logb 10 6000000 ∧
      Real.logb 10 6000000 ≤ (677816:ℝ) / 100000 :=
  ⟨le_logb_of_pow_le 6000000 677815 100000 (by norm_num) (by norm_num)
      (by exact_mod_cast (by decide : (10:ℕ) ^ 677815 ≤ 6000000 ^ 100000)),
   logb_le_of_pow_le 6000000 677816 100000 (by norm_num) (by norm_num)
      (by exact_mod_cast (by decide : (6000000:ℕ) ^ 100000 ≤ 10 ^ 677816))⟩

/-- The corner of `RLmax_conn`: a bracket for `logb 10 (189.7367 / 600)`. -/
theorem logb_conn_corner_bounds :
    -(50001:ℝ) / 100000 ≤ Real.logb 10 ((189.7367:ℝ) / 600) ∧
      Real.logb 10 ((189.7367:ℝ) / 600) ≤ -(49999:ℝ) / 100000 := by
  have h1 : ((189.7367:ℝ) / 600) = (1897367:ℝ) / 6000000 := by norm_num
  have h2 : Real.logb 10 ((189.7367:ℝ) / 600)
      = Real.logb 10 1897367 - Real.logb 10 6000000 := by
    rw [h1, Real.logb_div (by norm_num) (by norm_num)]
  have hb := logb1897367_bounds
  have hc := logb6000000_bounds
  constructor
  · rw [h2]; linarith [hb.1, hc.2]
  · rw [h2]; linarith [hb.2, hc.1]

set_option maxHeartbeats 2000000 in
/-- C1: for every piecewise limit function of the catalogue and every
interior breakpoint, the closed-form expressions of the segment below and
the segment above, both evaluated at the breakpoint, differ by at most
1e-3 in absolute value (breakpoint continuity of `RLmax_conn`,
`LCLmax_conn`, `PSANEXT_conn_ES`, `Atten_c_class1_conn_ES`, `RLmax_cable`,
`LCLmax_cable`, `LCTLmax_cable`, `RLmax_cable_assy`, `LCLmax_cable_assy`,
`Atten_c_class1_cable_assy_ES`, `RLmax_WCC`, `LCLmax_WCC`,
`PSANEXT_WCC_ES`, `Atten_c_class1_WCC_ES`, `Zshield_max_ECU`; the aliased
LCTL functions share their LCL target's segments). -/
theorem C1_breakpoint_continuity :
    |RLmax_conn_s1 189.7367 - RLmax_conn_s2 189.7367| ≤ 1e-3 ∧
    |LCLmax_conn_s1 50 - LCLmax_conn_s2 50| ≤ 1e-3 ∧
    |PSANEXT_conn_ES_s1 100 - PSANEXT_conn_ES_s2 100| ≤ 1e-3 ∧
    |Atten_c_class1_conn_ES_s1 100 - Atten_c_class1_conn_ES_s2 100| ≤ 1e-3 ∧
    |RLmax_cable_s1 10 - RLmax_cable_s2 10| ≤ 1e-3 ∧
    |RLmax_cable_s2 40 - RLmax_cable_s3 40| ≤ 1e-3 ∧
    |RLmax_cable_s3 130 - RLmax_cable_s4 130| ≤ 1e-3 ∧
    |RLmax_cable_s4 400 - RLmax_cable_s5 400| ≤ 1e-3 ∧
    |LCLmax_cable_s1 50 - LCLmax_cable_s2 50| ≤ 1e-3 ∧
    |LCTLmax_cable_s1 50 - LCTLmax_cable_s2 50| ≤ 1e-3 ∧
    |RLmax_cable_assy_s1 130 - RLmax_cable_assy_s2 130| ≤ 1e-3 ∧
    |RLmax_cable_assy_s2 400 - RLmax_cable_assy_s3 400| ≤ 1e-3 ∧
    |LCLmax_cable_assy_s1 50 - LCLmax_cable_assy_s2 50| ≤ 1e-3 ∧
    |Atten_c_class1_cable_assy_ES_s1 100 - Atten_c_class1_cable_assy_ES_s2 100| ≤ 1e-3 ∧
    |Atten_c_class1_cable_assy_ES_s2 400 - Atten_c_class1_cable_assy_ES_s3 400| ≤ 1e-3 ∧
    |RLmax_WCC_s1 10 - RLmax_WCC_s2 10| ≤ 1e-3 ∧
    |RLmax_WCC_s2 40 - RLmax_WCC_s3 40| ≤ 1e-3 ∧
    |RLmax_WCC_s3 130 - RLmax_WCC_s4 130| ≤ 1e-3 ∧
    |RLmax_WCC_s4 400 - RLmax_WCC_s5 400| ≤ 1e-3 ∧
    |LCLmax_WCC_s1 50 - LCLmax_WCC_s2 50| ≤ 1e-3 ∧
    |PSANEXT_WCC_ES_s1 100 - PSANEXT_WCC_ES_s2 100| ≤ 1e-3 ∧
    |Atten_c_class1_WCC_ES_s1 100 - Atten_c_class1_WCC_ES_s2 100| ≤ 1e-3 ∧
    |Zshield_max_ECU_s1 60 - Zshield_max_ECU_s2 60| ≤ 1e-3 := by
  have h40 := logb40_bounds
  have h50 := logb50_bounds
  have h130 := logb130_bounds
  have h400 := logb400_bounds
  have hcc := logb_conn_corner_bounds
  have hsixty : Real.logb 10 ((60:ℝ) / 60) = 0 := by
    rw [div_self (by norm_num : (60:ℝ) ≠ 0), Real.logb_one]
  refine ⟨?_, ?_, ?_, ?_, ?_, ?_, ?_, ?_, ?_, ?_, ?_, ?_, ?_, ?_, ?_, ?_, ?_,
    ?_, ?_, ?_, ?_, ?_, ?_⟩
  · simp only [RLmax_conn_s1, RLmax_conn_s2]
    rw [abs_le]; constructor <;> linarith [hcc.1, hcc.2]
  · simp only [LCLmax_conn_s1, LCLmax_conn_s2]
    rw [abs_le]; constructor <;> linarith [h50.1, h50.2]
  · simp only [PSANEXT_conn_ES_s1, PSANEXT_conn_ES_s2, logb_hundred]
    rw [abs_le]; constructor <;> norm_num
  · simp only [Atten_c_class1_conn_ES_s1, Atten_c_class1_conn_ES_s2, logb_hundred]
    rw [abs_le]; constructor <;> norm_num
  · simp only [RLmax_cable_s1, RLmax_cable_s2, logb_ten_self]
    rw [abs_le]; constructor <;> norm_num
  · simp only [RLmax_cable_s2, RLmax_cable_s3]
    rw [abs_le]; constructor <;> linarith [h40.1, h40.2]
  · simp only [RLmax_cable_s3, RLmax_cable_s4]
    rw [abs_le]; constructor <;> linarith [h130.1, h130.2]
  · simp only [RLmax_cable_s4, RLmax_cable_s5]
    rw [abs_le]; constructor <;> linarith [h400.1, h400.2]
  · simp only [LCLmax_cable_s1, LCLmax_cable_s2]
    rw [abs_le]; constructor <;> linarith [h50.1, h50.2]
  · simp only [LCTLmax_cable_s1, LCTLmax_cable_s2]
    rw [abs_le]; constructor <;> linarith [h50.1, h50.2]
  · simp only [RLmax_cable_assy_s1, RLmax_cable_assy_s2]
    rw [abs_le]; constructor <;> linarith [h130.1, h130.2]
  · simp only [RLmax_cable_assy_s2, RLmax_cable_assy_s3]
    rw [abs_le]; constructor <;> linarith [h400.1, h400.2]
  · simp only [LCLmax_cable_assy_s1, LCLmax_cable_assy_s2]
    rw [abs_le]; constructor <;> linarith [h50.1, h50.2]
  · simp only [Atten_c_class1_cable_assy_ES_s1, Atten_c_class1_cable_assy_ES_s2,
      logb_hundred]
    rw [abs_le]; constructor <;> norm_num
  · simp only [Atten_c_class1_cable_assy_ES_s2, Atten_c_class1_cable_assy_ES_s3]
    rw [abs_le]; constructor <;> linarith [h400.1, h400.2]
  · simp only [RLmax_WCC_s1, RLmax_WCC_s2, logb_ten_self]
    rw [abs_le]; constructor <;> norm_num
  · simp only [RLmax_WCC_s2, RLmax_WCC_s3]
    rw [abs_le]; constructor <;> linarith [h40.1, h40.2]
  · simp only [RLmax_WCC_s3, RLmax_WCC_s4]
    rw [abs_le]; constructor <;> linarith [h130.1, h130.2]
  · simp only [RLmax_WCC_s4, RLmax_WCC_s5]
    rw [abs_le]; constructor <;> linarith [h400.1, h400.2]
  · simp only [LCLmax_WCC_s1, LCLmax_WCC_s2]
    rw [abs_le]; constructor <;> linarith [h50.1, h50.2]
  · simp only [PSANEXT_WCC_ES_s1, PSANEXT_WCC_ES_s2, logb_hundred]
    rw [abs_le]; constructor <;> norm_num
  · simp only [Atten_c_class1_WCC_ES_s1, Atten_c_class1_WCC_ES_s2, logb_hundred]
    rw [abs_le]; constructor <;> norm_num
  · simp only [Zshield_max_ECU_s1, Zshield_max_ECU_s2, hsixty]
    rw [abs_le]; constructor <;> norm_num

/-! #### The elementwise evaluator: C2 and C3 -/

theorem storeAll_object (l : List (Option ℝ)) : storeAll false l = Except.ok l := by
  induction l with
  | nil => rfl
  | cons v vs ih => simp [storeAll, ih]

theorem storeAll_float_of_defined (l : List (Option ℝ)) (h : ∀ v ∈ l, v.isSome) :
    storeAll true l = Except.ok l := by
  induction l with
  | nil => rfl
  | cons v vs ih =>
    have hv : v.isSome := h v (List.mem_cons_self _ _)
    have hrest := ih fun w hw => h w (List.mem_cons_of_mem _ hw)
    simp [storeAll, Option.isNone_iff_eq_none, hrest]
    intro hnone
    rw [hnone] at hv
    simp at hv

theorem storeAll_float_of_none (l : List (Option ℝ)) (h : none ∈ l) :
    storeAll true l = Except.error () := by
  induction l with
  | nil => simp at h
  | cons v vs ih =>
    rcases List.mem_cons.mp h with h1 | h1
    · rw [← h1]
      simp [storeAll]
    · by_cases hv : v = none
      · simp [storeAll, hv]
      · simp [storeAll, Option.isNone_iff_eq_none, hv, ih h1]

/-- C2 counterexample: `RLmax_conn(np.array([100.0, 700.0]))` raises instead
of yielding the undefined value for the out-of-domain element 700: the first
element is in-domain, so the result array has float dtype, and storing
`None` into it is a `TypeError`. -/
theorem C2_counterexample :
    (100:ℝ) ≥ 1 ∧ (100:ℝ) ≤ 600 ∧ (700:ℝ) > 600 ∧
      feval RLmax_conn [100, 700] = some (Except.error ()) := by
  have h100 : RLmax_conn 100 = some (RLmax_conn_s1 100) := by
    unfold RLmax_conn
    rw [if_neg (by norm_num), if_pos (by norm_num)]
  have h700 : RLmax_conn 700 = none := by
    unfold RLmax_conn
    rw [if_pos (by norm_num)]
  refine ⟨by norm_num, by norm_num, by norm_num, ?_⟩
  have hmap : [(100:ℝ), 700].map RLmax_conn = [some (RLmax_conn_s1 100), none] := by
    simp [h100, h700]
  simp only [feval, hmap, h100]
  have : storeAll true [some (RLmax_conn_s1 100), none] = Except.error () :=
    storeAll_float_of_none _ (by simp)
  simpa [Option.isSome] using this

/-- C2 (amended): scalar evaluation of every catalogue limit function with a
validity domain returns the undefined value outside the domain rather than
raising; array evaluation is elementwise and raise-free when the first
element is itself out-of-domain (object dtype) or when every element is
in-domain, but when an in-domain element comes first and a later element is
out-of-domain the evaluation raises (float dtype cannot store `None`). -/
theorem C2_amended :
    (∀ f : ℝ, f < 1 ∨ f > 600 → ILmax_conn f = none) ∧
    (∀ f : ℝ, f < 1 ∨ f > 600 → RLmax_conn f = none) ∧
    (∀ f : ℝ, f < 10 ∨ f > 600 → LCLmax_conn f = none) ∧
    (∀ f : ℝ, f < 10 ∨ f > 600 → LCTLmax_conn f = none) ∧
    (∀ f : ℝ, f < 1 ∨ f > 600 → PSANEXT_conn_ES f = none) ∧
    (∀ f : ℝ, f < 1 ∨ f > 600 → PSAFEXT_conn_ES f = none) ∧
    (∀ f : ℝ, f < 30 ∨ f > 600 → Atten_c_class1_conn_ES f = none) ∧
    (∀ f : ℝ, f < 30 ∨ f > 600 → Atten_c_class2_conn_ES f = none) ∧
    (∀ f : ℝ, f < 30 ∨ f > 600 → Atten_s_class1_conn_ES f = none) ∧
    (∀ f : ℝ, f < 30 ∨ f > 600 → Atten_s_class2_conn_ES f = none) ∧
    (∀ f : ℝ, f < 1 ∨ f > 600 → ILmax_cable f = none) ∧
    (∀ f : ℝ, f < 1 ∨ f > 600 → RLmax_cable f = none) ∧
    (∀ f : ℝ, f < 10 ∨ f > 600 → LCLmax_cable f = none) ∧
    (∀ f : ℝ, f < 10 ∨ f > 600 → LCTLmax_cable f = none) ∧
    (∀ f : ℝ, f < 30 ∨ f > 600 → Atten_c_class1_cable_ES f = none) ∧
    (∀ f : ℝ, f < 30 ∨ f > 600 → Atten_c_class2_cable_ES f = none) ∧
    (∀ f : ℝ, f < 30 ∨ f > 600 → Atten_s_class1_cable_ES f = none) ∧
    (∀ f : ℝ, f < 30 ∨ f > 600 → Atten_s_class2_cable_ES f = none) ∧
    (∀ f : ℝ, f < 1 ∨ f > 600 → RLmax_cable_assy f = none) ∧
    (∀ f : ℝ, f < 10 ∨ f > 600 → LCLmax_cable_assy f = none) ∧
    (∀ f : ℝ, f < 10 ∨ f > 600 → LCTLmax_cable_assy f = none) ∧
    (∀ f : ℝ, f < 30 ∨ f > 600 → Atten_c_class1_cable_assy_ES f = none) ∧
    (∀ f : ℝ, f < 30 ∨ f > 600 → Atten_c_class2_cable_assy_ES f = none) ∧
    (∀ f : ℝ, f < 30 ∨ f > 600 → Atten_s_class1_cable_assy_ES f = none) ∧
    (∀ f : ℝ, f < 30 ∨ f > 600 → Atten_s_class2_cable_assy_ES f = none) ∧
    (∀ f : ℝ, f < 1 ∨ f > 600 → ILmax_WCC_LSTB f = none) ∧
    (∀ f : ℝ, f < 1 ∨ f > 600 → ILmax_WCC_LSTA f = none) ∧
    (∀ f : ℝ, f < 1 ∨ f > 600 → RLmax_WCC f = none) ∧
    (∀ f : ℝ, f < 10 ∨ f > 600 → LCLmax_WCC f = none) ∧
    (∀ f : ℝ, f < 10 ∨ f > 600 → LCTLmax_WCC f = none) ∧
    (∀ f : ℝ, f < 1 ∨ f > 600 → PSANEXT_WCC_ES f = none) ∧
    (∀ f : ℝ, f < 1 ∨ f > 600 → PSAACRF_WCC_ES f = none) ∧
    (∀ f : ℝ, f < 30 ∨ f > 600 → Atten_c_class1_WCC_ES f = none) ∧
    (∀ f : ℝ, f < 30 ∨ f > 600 → Atten_c_class2_WCC_ES f = none) ∧
    (∀ f : ℝ, f < 30 ∨ f > 600 → Atten_s_class1_WCC_ES f = none) ∧
    (∀ f : ℝ, f < 30 ∨ f > 600 → Atten_s_class2_WCC_ES f = none) ∧
    (∀ f : ℝ, f < 1 ∨ f > 600 → Zshield_max_ECU f = none) ∧
    (∀ (g : ℝ → Option ℝ) (x : ℝ) (xs : List ℝ), g x = none →
        feval g (x :: xs) = some (Except.ok ((x :: xs).map g))) ∧
    (∀ (g : ℝ → Option ℝ) (x : ℝ) (xs : List ℝ), (∀ w ∈ x :: xs, (g w).isSome) →
        feval g (x :: xs) = some (Except.ok ((x :: xs).map g))) ∧
    (∀ (g : ℝ → Option ℝ) (x : ℝ) (xs : List ℝ), (g x).isSome →
        (∃ w ∈ xs, g w = none) → feval g (x :: xs) = some (Except.error ())) := by
  refine ⟨?_, ?_, ?_, ?_, ?_, ?_, ?_, ?_, ?_, ?_, ?_, ?_, ?_, ?_, ?_, ?_, ?_,
    ?_, ?_, ?_, ?_, ?_, ?_, ?_, ?_, ?_, ?_, ?_, ?_, ?_, ?_, ?_, ?_, ?_, ?_,
    ?_, ?_, ?_, ?_, ?_⟩
  · intro f hf; unfold ILmax_conn; rw [if_pos hf]
  · intro f hf; unfold RLmax_conn; rw [if_pos hf]
  · intro f hf; unfold LCLmax_conn; rw [if_pos hf]
  · intro f hf; unfold LCTLmax_conn LCLmax_conn; rw [if_pos hf]
  · intro f hf; unfold PSANEXT_conn_ES; rw [if_pos hf]
  · intro f hf; unfold PSAFEXT_conn_ES; rw [if_pos hf]
  · intro f hf; unfold Atten_c_class1_conn_ES; rw [if_pos hf]
  · intro f hf; unfold Atten_c_class2_conn_ES; rw [if_pos hf]
  · intro f hf; unfold Atten_s_class1_conn_ES; rw [if_pos hf]
  · intro f hf; unfold Atten_s_class2_conn_ES; rw [if_pos hf]
  · intro f hf; unfold ILmax_cable; rw [if_pos hf]
  · intro f hf; unfold RLmax_cable; rw [if_pos hf]
  · intro f hf; unfold LCLmax_cable; rw [if_pos hf]
  · intro f hf; unfold LCTLmax_cable; rw [if_pos hf]
  · intro f hf; unfold Atten_c_class1_cable_ES; rw [if_pos hf]
  · intro f hf; unfold Atten_c_class2_cable_ES Atten_c_class1_cable_ES; rw [if_pos hf]
  · intro f hf; unfold Atten_s_class1_cable_ES; rw [if_pos hf]
  · intro f hf; unfold Atten_s_class2_cable_ES; rw [if_pos hf]
  · intro f hf; unfold RLmax_cable_assy; rw [if_pos hf]
  · intro f hf; unfold LCLmax_cable_assy; rw [if_pos hf]
  · intro f hf; unfold LCTLmax_cable_assy LCLmax_cable_assy; rw [if_pos hf]
  · intro f hf; unfold Atten_c_class1_cable_assy_ES; rw [if_pos hf]
  · intro f hf; unfold Atten_c_class2_cable_assy_ES; rw [if_pos hf]
  · intro f hf; unfold Atten_s_class1_cable_assy_ES; rw [if_pos hf]
  · intro f hf; unfold Atten_s_class2_cable_assy_ES; rw [if_pos hf]
  · intro f hf; unfold ILmax_WCC_LSTB; rw [if_pos hf]
  · intro f hf; unfold ILmax_WCC_LSTA; rw [if_pos hf]
  · intro f hf; unfold RLmax_WCC; rw [if_pos hf]
  · intro f hf; unfold LCLmax_WCC; rw [if_pos hf]
  · intro f hf; unfold LCTLmax_WCC LCLmax_WCC; rw [if_pos hf]
  · intro f hf; unfold PSANEXT_WCC_ES; rw [if_pos hf]
  · intro f hf; unfold PSAACRF_WCC_ES; rw [if_pos hf]
  · intro f hf; unfold Atten_c_class1_WCC_ES; rw [if_pos hf]
  · intro f hf; unfold Atten_c_class2_WCC_ES; rw [if_pos hf]
  · intro f hf; unfold Atten_s_class1_WCC_ES; rw [if_pos hf]
  · intro f hf; unfold Atten_s_class2_WCC_ES; rw [if_pos hf]
  · intro f hf; unfold Zshield_max_ECU; rw [if_pos hf]
  · intro g x xs hx
    have h1 : (g x).isSome = false := by simp [hx]
    simp only [feval, h1, storeAll_object]
  · intro g x xs hall
    have h1 : ∀ v ∈ (x :: xs).map g, v.isSome := by
      intro v hv
      rcases List.mem_map.mp hv with ⟨w, hw, rfl⟩
      exact hall w hw
    have hx : (g x).isSome = true := hall x (List.mem_cons_self _ _)
    simp only [feval, hx, storeAll_float_of_defined _ h1]
  · intro g x xs hx hex
    obtain ⟨w, hw, hwnone⟩ := hex
    have h1 : none ∈ (x :: xs).map g :=
      List.mem_map.mpr ⟨w, List.mem_cons_of_mem _ hw, hwnone⟩
    simp only [feval, hx, storeAll_float_of_none _ h1]

/-- C3: `feval` over a non-empty array of frequencies and a float-valued
scalar function returns a result of the same length whose i-th element is
the scalar evaluation of the i-th input, in order. -/
theorem C3_elementwise (g : ℝ → ℝ) (xs : List ℝ) (h : xs ≠ []) :
    feval (fun x => some (g x)) xs = some (Except.ok (xs.map fun x => some (g x))) ∧
    (xs.map fun x => some (g x)).length = xs.length ∧
    ∀ i (hi : i < xs.length),
      (xs.map fun x => some (g x)).get ⟨i, by simpa using hi⟩ =
        some (g (xs.get ⟨i, hi⟩)) := by
  obtain ⟨x, xs', rfl⟩ : ∃ y ys, xs = y :: ys := by
    cases xs with
    | nil => exact absurd rfl h
    | cons y ys => exact ⟨y, ys, rfl⟩
  refine ⟨?_, by simp, ?_⟩
  · have h1 : ∀ v ∈ (x :: xs').map fun w => some (g w), v.isSome := by
      intro v hv
      rcases List.mem_map.mp hv with ⟨w, _, rfl⟩
      simp
    simp only [feval, Option.isSome_some, storeAll_float_of_defined _ h1]
  · intro i hi
    simp only [List.get_eq_getElem, List.getElem_map]

/-- Witness for C3 at the concrete function fun x => x + 1 and array [2]. -/
theorem C3_witness :
    feval (fun x : ℝ => some (x + 1)) [2] = some (Except.ok [some ((2:ℝ) + 1)]) :=
  (C3_elementwise (fun y : ℝ => y + 1) [2] (by simp)).1

/-! #### Pipeline: characterization of `ISO_Plot` -/

theorem annStep_good (kn : ℕ) (x : Option PyCoord) (h : shapeOk x = true) :
    annStep kn x = Except.ok
      (if x.isSome then some kn else none, if x.isSome then kn + 1 else kn) := by
  cases x with
  | none => rfl
  | some c =>
    cases c with
    | tup u v => rfl
    | lst u v => rfl
    | other => simp [shapeOk] at h

theorem fail2Step_good (kf : Option ℕ) (kn : ℕ) (x : Option PyCoord)
    (h : shapeOk x = true) :
    fail2Step kf kn x = Except.ok
      (if x.isSome && kf.isNone then some kn else kf,
       if x.isSome && kf.isNone then kn + 1 else kn) := by
  cases x with
  | none => cases kf <;> rfl
  | some c =>
    cases c with
    | tup u v => cases kf <;> rfl
    | lst u v => cases kf <;> rfl
    | other => simp [shapeOk] at h

theorem annKeys_good (p f f2 b : Option PyCoord)
    (hp : shapeOk p = true) (hf : shapeOk f = true) (hf2 : shapeOk f2 = true)
    (hb : shapeOk b = true) :
    annKeys p f f2 b = Except.ok
      (if p.isSome then some 1 else none,
       if f.isSome || f2.isSome then
         some (1 + (if p.isSome then 1 else 0))
       else none,
       if b.isSome then
         some (1 + (if p.isSome then 1 else 0)
           + (if f.isSome || f2.isSome then 1 else 0))
       else none) := by
  unfold annKeys
  rw [annStep_good 1 p hp]
  dsimp only
  rw [annStep_good _ f hf]
  dsimp only
  rw [fail2Step_good _ _ f2 hf2]
  dsimp only
  rw [annStep_good _ b hb]
  dsimp only
  cases hps : p.isSome <;> cases hfs : f.isSome <;> cases hf2s : f2.isSome <;>
    cases hbs : b.isSome <;> simp [hps, hfs, hf2s, hbs]

theorem shapeOk_false_eq (x : Option PyCoord) (hx : shapeOk x = false) :
    x = some PyCoord.other := by
  rcases x with _ | c
  · simp [shapeOk] at hx
  · cases c with
    | tup u v => simp [shapeOk] at hx
    | lst u v => simp [shapeOk] at hx
    | other => rfl

theorem annKeys_bad (p f f2 b : Option PyCoord)
    (h : shapeOk p = false ∨ shapeOk f = false ∨ shapeOk f2 = false ∨
      shapeOk b = false) :
    annKeys p f f2 b = Except.error () := by
  rcases h with h | h | h | h
  · rw [shapeOk_false_eq p h]; rfl
  · rw [shapeOk_false_eq f h]
    rcases p with _ | ⟨_, _⟩ | ⟨_, _⟩ | _ <;> rfl
  · rw [shapeOk_false_eq f2 h]
    rcases p with _ | ⟨_, _⟩ | ⟨_, _⟩ | _ <;>
      rcases f with _ | ⟨_, _⟩ | ⟨_, _⟩ | _ <;> rfl
  · rw [shapeOk_false_eq b h]
    rcases p with _ | ⟨_, _⟩ | ⟨_, _⟩ | _ <;>
      rcases f with _ | ⟨_, _⟩ | ⟨_, _⟩ | _ <;>
        rcases f2 with _ | ⟨_, _⟩ | ⟨_, _⟩ | _ <;> rfl

set_option maxHeartbeats 1600000 in
/-- The closed form of a completed `ISO_Plot` call. -/
theorem ISO_Plot_spec (s : ISO_Plots) (a : PlotArgs) (hs : a.samples ≠ [])
    (hp : shapeOk a.xypass = true) (hf : shapeOk a.xyfail = true)
    (hf2 : shapeOk a.xyfail2 = true) (hb : shapeOk a.xybetter = true) :
    ISO_Plot s a = Except.ok (postState s a) := by
  obtain ⟨std, fd, ff, n0, app, kt, zl⟩ := s
  obtain ⟨ys, fs, ab, un, xp, xf, xf2, xb, fg, fn⟩ := a
  have hemp : ys.isEmpty = false := by
    cases ys with
    | nil => exact absurd rfl hs
    | cons y ys => rfl
  unfold ISO_Plot
  rw [annKeys_good xp xf xf2 xb hp hf hf2 hb]
  rcases fg with _ | n <;> rcases xp with _ | cp <;> rcases xf with _ | cf <;>
    rcases xf2 with _ | cf2 <;> rcases xb with _ | cb <;>
      simp [postState, plotRecords, resolvedFig, AddKeyToFigure, AddFileToZip,
        figLine, hemp, List.append_assoc]

theorem ISO_Plot_err (s : ISO_Plots) (a : PlotArgs)
    (h : shapeOk a.xypass = false ∨ shapeOk a.xyfail = false ∨
      shapeOk a.xyfail2 = false ∨ shapeOk a.xybetter = false) :
    ISO_Plot s a = Except.error () := by
  unfold ISO_Plot
  rw [annKeys_bad _ _ _ _ h]
  by_cases he : a.samples.isEmpty <;> simp [he]

theorem ISO_Plot_ok_inv (s : ISO_Plots) (a : PlotArgs) (s2 : ISO_Plots)
    (h : ISO_Plot s a = Except.ok s2) :
    a.samples ≠ [] ∧ shapeOk a.xypass = true ∧ shapeOk a.xyfail = true ∧
      shapeOk a.xyfail2 = true ∧ shapeOk a.xybetter = true := by
  have hs : a.samples ≠ [] := by
    intro hnil
    unfold ISO_Plot at h
    rw [if_pos (by simp [hnil])] at h
    exact Except.noConfusion h
  refine ⟨hs, ?_, ?_, ?_, ?_⟩
  · cases h1 : shapeOk a.xypass with
    | true => rfl
    | false =>
      rw [ISO_Plot_err s a (Or.inl h1)] at h
      exact Except.noConfusion h
  · cases h1 : shapeOk a.xyfail with
    | true => rfl
    | false =>
      rw [ISO_Plot_err s a (Or.inr (Or.inl h1))] at h
      exact Except.noConfusion h
  · cases h1 : shapeOk a.xyfail2 with
    | true => rfl
    | false =>
      rw [ISO_Plot_err s a (Or.inr (Or.inr (Or.inl h1)))] at h
      exact Except.noConfusion h
  · cases h1 : shapeOk a.xybetter with
    | true => rfl
    | false =>
      rw [ISO_Plot_err s a (Or.inr (Or.inr (Or.inr h1)))] at h
      exact Except.noConfusion h

/-- C9: given a non-empty sample array, `ISO_Plot` completes if and only if
every present annotation coordinate argument is of a supported shape — an
unsupported shape raises immediately (no state is produced), and nothing
else raises. -/
theorem C9_raise_iff (s : ISO_Plots) (a : PlotArgs) (hs : a.samples ≠ []) :
    (∃ s2, ISO_Plot s a = Except.ok s2) ↔
      (shapeOk a.xypass = true ∧ shapeOk a.xyfail = true ∧
       shapeOk a.xyfail2 = true ∧ shapeOk a.xybetter = true) := by
  constructor
  · rintro ⟨s2, h2⟩
    exact (ISO_Plot_ok_inv s a s2 h2).2
  · rintro ⟨h1, h3, h4, h5⟩
    exact ⟨postState s a, ISO_Plot_spec s a hs h1 h3 h4 h5⟩

/-- Witness for C9 at a concrete session and arguments. -/
theorem C9_witness :
    (∃ s2, ISO_Plot exS exA = Except.ok s2) ↔
      (shapeOk exA.xypass = true ∧ shapeOk exA.xyfail = true ∧
       shapeOk exA.xyfail2 = true ∧ shapeOk exA.xybetter = true) :=
  C9_raise_iff exS exA (by simp [exA])

/-- C5: every completed `ISO_Plot` call appends to the key table, in order,
the X record ("Frequency [MHz]"), the Y record (`vunit`: abbreviation plus
unit, or "LIMIT" plus unit without an abbreviation), and one record per
present annotation with codes assigned sequentially from 1 in the order
pass, fail (both fail markers sharing one code), better — all carrying the
figure id of the resolved figure number (see `plotRecords`). -/
theorem C5_key_table (s : ISO_Plots) (a : PlotArgs) (s2 : ISO_Plots)
    (h : ISO_Plot s a = Except.ok s2) :
    s2.key_table = s.key_table ++ plotRecords s.appendix (resolvedFig s a) a := by
  obtain ⟨hs, h1, h3, h4, h5⟩ := ISO_Plot_ok_inv s a s2 h
  have hspec := ISO_Plot_spec s a hs h1 h3 h4 h5
  rw [h] at hspec
  injection hspec with h6
  subst h6
  simp [postState]

/-- Witness for C5 at a concrete session and arguments. -/
theorem C5_witness :
    (postState exS exA).key_table
      = exS.key_table ++ plotRecords exS.appendix (resolvedFig exS exA) exA :=
  C5_key_table exS exA (postState exS exA)
    (ISO_Plot_spec exS exA (by simp [exA]) rfl rfl rfl rfl)

/-- C4: plotting `ILmax_cable_assy` — whose sampling plan evaluates to the
undefined value at every frequency — does not raise: sampling yields
`[None, None]` (object dtype, no error), `ISO_Plot` completes, the key
table gains exactly the X and Y records (no pass/fail/better records), and
the archive manifest gains the figure's file. -/
theorem C4_undefined_curve (s : ISO_Plots) (abbr unit figname : Option String) :
    feval ILmax_cable_assy ILmax_cable_assy_plan = some (Except.ok [none, none]) ∧
    ∃ s2, ISO_Plot s ⟨[none, none], ILmax_cable_assy_plan, abbr, unit,
        none, none, none, none, none, figname⟩ = Except.ok s2 ∧
      s2.key_table = s.key_table
        ++ [figLine s.appendix (s.fig_num + 1) "X" "Frequency [MHz]",
            figLine s.appendix (s.fig_num + 1) "Y" (vunit abbr unit)] ∧
      s2.zip_file_list.length = s.zip_file_list.length + 1 := by
  refine ⟨rfl, postState s _, ISO_Plot_spec s _ (by simp) rfl rfl rfl rfl, ?_, ?_⟩
  · simp [postState, plotRecords, resolvedFig]
  · simp [postState]

/-- C6: an explicit figure number is used and resynchronizes the counter
(the next auto-numbered plot gets n + 1); an auto-numbered plot uses
counter + 1; skipping then auto-plotting uses counter + skip + 1. -/
theorem C6_figure_numbering (s : ISO_Plots) (a : PlotArgs) (n skip : ℕ)
    (hs : a.samples ≠ []) (hp : shapeOk a.xypass = true)
    (hf : shapeOk a.xyfail = true) (hf2 : shapeOk a.xyfail2 = true)
    (hb : shapeOk a.xybetter = true) :
    (∃ s2, ISO_Plot s { a with fig := some n } = Except.ok s2 ∧
       s2.fig_num = n ∧
       s2.key_table = s.key_table
         ++ plotRecords s.appendix n { a with fig := some n } ∧
       ∃ s3, ISO_Plot s2 { a with fig := none } = Except.ok s3 ∧
         s3.fig_num = n + 1) ∧
    (∃ s2, ISO_Plot s { a with fig := none } = Except.ok s2 ∧
       s2.fig_num = s.fig_num + 1 ∧
       s2.key_table = s.key_table
         ++ plotRecords s.appendix (s.fig_num + 1) { a with fig := none }) ∧
    (∃ s2, ISO_Plot (ISO_Skip_Figure s skip) { a with fig := none }
        = Except.ok s2 ∧ s2.fig_num = s.fig_num + skip + 1) := by
  refine ⟨⟨postState s _, ISO_Plot_spec s _ hs hp hf hf2 hb, ?_, ?_,
      postState _ _, ISO_Plot_spec _ _ hs hp hf hf2 hb, ?_⟩,
    ⟨postState s _, ISO_Plot_spec s _ hs hp hf hf2 hb, ?_, ?_⟩,
    ⟨postState _ _, ISO_Plot_spec _ _ hs hp hf hf2 hb, ?_⟩⟩
  · simp [postState, resolvedFig]
  · simp [postState, resolvedFig]
  · simp [postState, resolvedFig]
  · simp [postState, resolvedFig]
  · simp [postState, resolvedFig]
  · simp [postState, resolvedFig, ISO_Skip_Figure]

/-- Witness for C6 at a concrete session, arguments, n = 5, skip = 2. -/
theorem C6_witness :
    (∃ s2, ISO_Plot exS { exA with fig := some 5 } = Except.ok s2 ∧
       s2.fig_num = 5 ∧
       s2.key_table = exS.key_table
         ++ plotRecords exS.appendix 5 { exA with fig := some 5 } ∧
       ∃ s3, ISO_Plot s2 { exA with fig := none } = Except.ok s3 ∧
         s3.fig_num = 5 + 1) ∧
    (∃ s2, ISO_Plot exS { exA with fig := none } = Except.ok s2 ∧
       s2.fig_num = exS.fig_num + 1 ∧
       s2.key_table = exS.key_table
         ++ plotRecords exS.appendix (exS.fig_num + 1) { exA with fig := none }) ∧
    (∃ s2, ISO_Plot (ISO_Skip_Figure exS 2) { exA with fig := none }
        = Except.ok s2 ∧ s2.fig_num = exS.fig_num + 2 + 1) :=
  C6_figure_numbering exS exA 5 2 (by simp [exA]) rfl rfl rfl rfl

/-- C10: when `xyfail` is absent but `xyfail2` is present (well-shaped), the
second fail marker takes the next sequential code — the code a first fail
marker would have received — exactly one Fail record with that code is
appended, and a better annotation receives the following code. -/
theorem C10_fail2 (s : ISO_Plots) (a : PlotArgs) (hs : a.samples ≠ [])
    (hfail : a.xyfail = none) (hf2 : a.xyfail2.isSome = true)
    (hsh2 : shapeOk a.xyfail2 = true) (hp : shapeOk a.xypass = true)
    (hb : shapeOk a.xybetter = true) :
    ∃ s2, ISO_Plot s a = Except.ok s2 ∧
      s2.key_table = s.key_table
        ++ [figLine s.appendix (resolvedFig s a) "X" "Frequency [MHz]",
            figLine s.appendix (resolvedFig s a) "Y" (vunit a.abbr a.unit)]
        ++ (if a.xypass.isSome then
              [figLine s.appendix (resolvedFig s a)
                ("(" ++ toString 1 ++ ")") "Pass"]
            else [])
        ++ [figLine s.appendix (resolvedFig s a)
              ("(" ++ toString (1 + (if a.xypass.isSome then 1 else 0)) ++ ")")
              "Fail"]
        ++ (if a.xybetter.isSome then
              [figLine s.appendix (resolvedFig s a)
                ("(" ++ toString (2 + (if a.xypass.isSome then 1 else 0)) ++ ")")
                "Better"]
            else []) := by
  have hshf : shapeOk a.xyfail = true := by rw [hfail]; rfl
  refine ⟨postState s a, ISO_Plot_spec s a hs hp hshf hsh2 hb, ?_⟩
  rcases hxp : a.xypass with _ | cp <;> rcases hxb : a.xybetter with _ | cb <;>
    simp [postState, plotRecords, resolvedFig, hfail, hf2, hxp, hxb,
      List.append_assoc]

/-- Witness for C10 at a concrete session and arguments. -/
theorem C10_witness :
    ∃ s2, ISO_Plot exS exA2 = Except.ok s2 ∧
      s2.key_table = exS.key_table
        ++ [figLine exS.appendix (resolvedFig exS exA2) "X" "Frequency [MHz]",
            figLine exS.appendix (resolvedFig exS exA2) "Y" (vunit exA2.abbr exA2.unit)]
        ++ (if exA2.xypass.isSome then
              [figLine exS.appendix (resolvedFig exS exA2)
                ("(" ++ toString 1 ++ ")") "Pass"]
            else [])
        ++ [figLine exS.appendix (resolvedFig exS exA2)
              ("(" ++ toString (1 + (if exA2.xypass.isSome then 1 else 0)) ++ ")")
              "Fail"]
        ++ (if exA2.xybetter.isSome then
              [figLine exS.appendix (resolvedFig exS exA2)
                ("(" ++ toString (2 + (if exA2.xypass.isSome then 1 else 0)) ++ ")")
                "Better"]
            else []) :=
  C10_fail2 exS exA2 (by simp [exA2]) rfl rfl rfl rfl rfl

/-- C7: with no appendix started, two argumentless `ISO_Start_Appendix`
calls set the label to "A" then "B", each resetting the figure counter to 0
so the first auto-numbered plot after each call is numbered 1; an explicit
label is used as its first character, upper-cased. -/
theorem C7_appendix (s : ISO_Plots) (happ : s.appendix = none) (lbl : String)
    (hl : lbl ≠ "") (a : PlotArgs) (hs : a.samples ≠ [])
    (hp : shapeOk a.xypass = true) (hf : shapeOk a.xyfail = true)
    (hf2 : shapeOk a.xyfail2 = true) (hb : shapeOk a.xybetter = true) :
    (ISO_Start_Appendix s none).appendix = some 'A' ∧
    (ISO_Start_Appendix s none).fig_num = 0 ∧
    (ISO_Start_Appendix (ISO_Start_Appendix s none) none).appendix = some 'B' ∧
    (ISO_Start_Appendix (ISO_Start_Appendix s none) none).fig_num = 0 ∧
    (∃ s2, ISO_Plot (ISO_Start_Appendix s none) { a with fig := none }
        = Except.ok s2 ∧ s2.fig_num = 1 ∧
      s2.key_table = (ISO_Start_Appendix s none).key_table
        ++ plotRecords (some 'A') 1 { a with fig := none }) ∧
    (∃ s2, ISO_Plot (ISO_Start_Appendix (ISO_Start_Appendix s none) none)
        { a with fig := none } = Except.ok s2 ∧ s2.fig_num = 1) ∧
    (ISO_Start_Appendix s (some lbl)).appendix
      = some (Char.toUpper (lbl.data.headD 'A')) ∧
    (ISO_Start_Appendix s (some lbl)).fig_num = 0 := by
  obtain ⟨std, fd, ff, n0, app, kt, zl⟩ := s
  have happ2 : app = none := happ
  subst happ2
  obtain ⟨d⟩ := lbl
  have hupper : upperFirst ⟨d⟩ = Char.toUpper (d.headD 'A') := by
    cases d with
    | nil => exact absurd rfl hl
    | cons c cs => rfl
  refine ⟨rfl, rfl, ?_, rfl,
    ⟨postState _ _, ISO_Plot_spec _ _ hs hp hf hf2 hb, ?_, ?_⟩,
    ⟨postState _ _, ISO_Plot_spec _ _ hs hp hf hf2 hb, ?_⟩,
    ?_, rfl⟩
  · show some (Char.ofNat ('A'.toNat + 1)) = some 'B'
    decide
  · simp [postState, resolvedFig, ISO_Start_Appendix]
  · simp [postState, resolvedFig, ISO_Start_Appendix, upperFirst]
  · simp [postState, resolvedFig, ISO_Start_Appendix]
  · simp [ISO_Start_Appendix, hupper]

/-- Witness for C7 at a concrete session, the label "annex", and concrete
arguments. -/
theorem C7_witness :
    (ISO_Start_Appendix exS none).appendix = some 'A' ∧
    (ISO_Start_Appendix exS none).fig_num = 0 ∧
    (ISO_Start_Appendix (ISO_Start_Appendix exS none) none).appendix = some 'B' ∧
    (ISO_Start_Appendix (ISO_Start_Appendix exS none) none).fig_num = 0 ∧
    (∃ s2, ISO_Plot (ISO_Start_Appendix exS none) { exA with fig := none }
        = Except.ok s2 ∧ s2.fig_num = 1 ∧
      s2.key_table = (ISO_Start_Appendix exS none).key_table
        ++ plotRecords (some 'A') 1 { exA with fig := none }) ∧
    (∃ s2, ISO_Plot (ISO_Start_Appendix (ISO_Start_Appendix exS none) none)
        { exA with fig := none } = Except.ok s2 ∧ s2.fig_num = 1) ∧
    (ISO_Start_Appendix exS (some "annex")).appendix
      = some (Char.toUpper ("annex".data.headD 'A')) ∧
    (ISO_Start_Appendix exS (some "annex")).fig_num = 0 :=
  C7_appendix exS rfl "annex" (by decide) exA (by simp [exA]) rfl rfl rfl rfl

theorem mapM_shortname (l : List String) (h : ∀ p ∈ l, lastComp p ≠ "") :
    (l.mapM fun p => (shortname p).map fun n => (n, p))
      = some (l.map fun p => (lastComp p, p)) := by
  induction l with
  | nil => rfl
  | cons x xs ih =>
    have hx : shortname x = some (lastComp x) := by
      simp only [shortname]
      rw [if_neg (h x (List.mem_cons_self _ _))]
    rw [List.mapM_cons, hx, ih fun p hp => h p (List.mem_cons_of_mem _ hp)]
    rfl

/-- C8: `ISO_Wrapup` writes the accumulated key-table lines, in order, to
the file `<fig_dir><std_name>_(E)_KEYS.txt`, appends that file to the
archive manifest, and creates `<fig_dir>FIGURES-<std_name>_(E).zip`
containing every manifested file under its base filename (the trailing
backslash-free component). -/
theorem C8_wrapup (s : ISO_Plots)
    (h : ∀ p ∈ s.zip_file_list ++ [s.fig_dir ++ s.std_name ++ "_(E)_KEYS.txt"],
      lastComp p ≠ "") :
    ISO_Wrapup s = some
      ⟨s.fig_dir ++ s.std_name ++ "_(E)_KEYS.txt", s.key_table,
       s.fig_dir ++ "FIGURES-" ++ s.std_name ++ "_(E).zip",
       (s.zip_file_list ++ [s.fig_dir ++ s.std_name ++ "_(E)_KEYS.txt"]).map
         fun p => (lastComp p, p)⟩ := by
  unfold ISO_Wrapup CreateKeyTable AddFileToZip CreateZipArchive
  dsimp only
  rw [mapM_shortname _ h]
  rfl

/-- Witness for C8 at a concrete finished session. -/
theorem C8_witness :
    ISO_Wrapup exS8 = some
      ⟨exS8.fig_dir ++ exS8.std_name ++ "_(E)_KEYS.txt", exS8.key_table,
       exS8.fig_dir ++ "FIGURES-" ++ exS8.std_name ++ "_(E).zip",
       (exS8.zip_file_list ++ [exS8.fig_dir ++ exS8.std_name ++ "_(E)_KEYS.txt"]).map
         fun p => (lastComp p, p)⟩ :=
  C8_wrapup exS8 (by decide)
